import Mathlib

/-!
# Verification of the Xomware API response envelope

Shallow embedding of `src/workflows/api-response-envelope/types/api-response.py`.

The module defines a standard envelope for HTTP API responses in two
parallel forms: a pydantic-based class `ApiResponse` (with classmethod
constructors `ok` / `fail`) and a dependency-free dataclass
`ApiResponseDC` (with helper factories `api_ok` / `api_error` and a
serialization method `to_dict`).

Python payload values (`data: Any`) are embedded as the inductive type
`Value`, whose constructor `Value.none` plays the role of Python's `None`
(the "absent sentinel").  Dictionaries returned by `to_dict` are embedded
as insertion-ordered association lists `List (String × Value)`.
-/

/-- A Python value, as far as the envelope is concerned: `None`, booleans,
integers, strings, lists and (string-keyed) dicts.  `Value.none` embeds
Python's `None`. -/
inductive Value where
  | none : Value
  | bool : Bool → Value
  | int : Int → Value
  | str : String → Value
  | list : List Value → Value
  | dict : List (String × Value) → Value

/-- Embeds Python's `x is None` identity test (for our `Value` embedding a
top-level constructor check). -/
def Value.isNone : Value → Bool
  | Value.none => true
  | _ => false

/-- Dataclass form of the envelope (`ApiResponseDC` in the source):
`success: bool`, `data: Any = None`, `error: Optional[str] = None`. -/
structure ApiResponseDC where
  success : Bool
  data : Value := Value.none
  error : Option String := Option.none

/-- `ApiResponseDC.to_dict`: builds `{"success": self.success}`, adds
`"data"` if `self.data is not None`, adds `"error"` if
`self.error is not None`. -/
def ApiResponseDC.to_dict (r : ApiResponseDC) : List (String × Value) :=
  let result : List (String × Value) := [("success", Value.bool r.success)]
  let result := if r.data.isNone then result else result ++ [("data", r.data)]
  let result := match r.error with
    | Option.some e => result ++ [("error", Value.str e)]
    | Option.none => result
  result

/-- Helper factory `api_ok(data)`: `ApiResponseDC(success=True, data=data)`. -/
def api_ok (data : Value) : ApiResponseDC :=
  { success := true, data := data }

/-- Helper factory `api_error(message)`:
`ApiResponseDC(success=False, error=message)`. -/
def api_error (message : String) : ApiResponseDC :=
  { success := false, error := Option.some message }

/-- Pydantic form of the envelope (`ApiResponse` in the source):
`success: bool`, `data: Optional[T] = None`, `error: Optional[str] = None`. -/
structure ApiResponse where
  success : Bool
  data : Value := Value.none
  error : Option String := Option.none

/-- Classmethod `ApiResponse.ok(data)`: `cls(success=True, data=data)`. -/
def ApiResponse.ok (data : Value) : ApiResponse :=
  { success := true, data := data }

/-- Classmethod `ApiResponse.fail(error)`: `cls(success=False, error=error)`. -/
def ApiResponse.fail (error : String) : ApiResponse :=
  { success := false, error := Option.some error }

/-- Property `ApiResponse.is_success`: `self.success is True`. -/
def ApiResponse.is_success (r : ApiResponse) : Bool :=
  r.success == true

/-- Property `ApiResponse.is_error`: `self.success is False`. -/
def ApiResponse.is_error (r : ApiResponse) : Bool :=
  r.success == false

/-- Whether the mapping `d` has an entry with key `k`. -/
def hasKey (k : String) (d : List (String × Value)) : Bool :=
  d.any (fun kv => k == kv.1)

/-- The ways an `ApiResponseDC` can come into being in client code: through
the helper factory `api_ok`, through the helper factory `api_error`, or by
calling the dataclass constructor directly with explicit field values. -/
inductive BuildPath where
  | viaApiOk : Value → BuildPath
  | viaApiError : String → BuildPath
  | direct : Bool → Value → Option String → BuildPath

/-- The envelope produced by each construction path. -/
def BuildPath.build : BuildPath → ApiResponseDC
  | BuildPath.viaApiOk v => api_ok v
  | BuildPath.viaApiError m => api_error m
  | BuildPath.direct s d e => ApiResponseDC.mk s d e

/-- Whether the construction path is the success factory `api_ok`. -/
def BuildPath.usedOk : BuildPath → Bool
  | BuildPath.viaApiOk _ => true
  | _ => false

/-- Whether the construction path is the failure factory `api_error`. -/
def BuildPath.usedFail : BuildPath → Bool
  | BuildPath.viaApiError _ => true
  | _ => false

/-- Modelled from the spec: the source file defines no deserialization
operation (`to_dict` has no inverse under `src/`), but the spec's
round-trip property refers to one.  Following the spec's words,
`deserialize` reads the three keys back from the mapping, treating an
absent `data` key as the absent sentinel and an absent `error` key as the
absent sentinel. -/
def deserialize (d : List (String × Value)) : ApiResponseDC :=
  { success := match d.lookup "success" with
      | Option.some (Value.bool b) => b
      | _ => false
    data := (d.lookup "data").getD Value.none
    error := match d.lookup "error" with
      | Option.some (Value.str s) => Option.some s
      | _ => Option.none }

/-- The method `to_dict` as a state transformer on its receiver: the pair
of its return value and the receiver after the call.  The Python body only
reads `self.success`, `self.data` and `self.error` and assigns only to the
local `result`; no statement assigns to an attribute of `self`, so the
receiver after the call is `self` as received. -/
def ApiResponseDC.to_dict_method (self : ApiResponseDC) :
    List (String × Value) × ApiResponseDC :=
  let result : List (String × Value) := [("success", Value.bool self.success)]
  let result := if self.data.isNone then result else result ++ [("data", self.data)]
  let result := match self.error with
    | Option.some e => result ++ [("error", Value.str e)]
    | Option.none => result
  (result, self)

/-- `isNone` is the characteristic function of being the absent sentinel. -/
theorem Value.isNone_iff (v : Value) : v.isNone = true ↔ v = Value.none := by
  cases v <;> simp [Value.isNone]

/-- `isNone` is false exactly on values other than the absent sentinel. -/
theorem Value.isNone_eq_false_iff (v : Value) : v.isNone = false ↔ v ≠ Value.none := by
  cases v <;> simp [Value.isNone]

/-- `to_dict` written as the concatenation of its three building steps. -/
theorem ApiResponseDC.to_dict_eq (r : ApiResponseDC) :
    r.to_dict = [("success", Value.bool r.success)]
      ++ (if r.data.isNone then [] else [("data", r.data)])
      ++ (match r.error with
          | Option.some e => [("error", Value.str e)]
          | Option.none => []) := by
  obtain ⟨s, d, e⟩ := r
  cases d <;> cases e <;> rfl

/-- Claim C1: for every payload value `v` (including the absent sentinel
and empty containers), `api_ok(v).to_dict()` is exactly the mapping
with `success` bound to `true` and `data` bound to `v` when `v` is not the
absent sentinel, and exactly the singleton mapping with `success` bound to
`true` (no `data` key, no `error` key) when `v` is the absent sentinel. -/
theorem C1_api_ok_to_dict (v : Value) :
    (v ≠ Value.none →
      (api_ok v).to_dict = [("success", Value.bool true), ("data", v)]) ∧
    (v = Value.none → (api_ok v).to_dict = [("success", Value.bool true)]) := by
  constructor
  · intro hv
    cases v with
    | none => exact absurd rfl hv
    | _ => rfl
  · intro hv
    subst hv
    rfl

/-- Witness for C1 at the concrete inputs `Value.int 7` and `Value.none`. -/
theorem C1_api_ok_to_dict_witness :
    (api_ok (Value.int 7)).to_dict
      = [("success", Value.bool true), ("data", Value.int 7)] ∧
    (api_ok Value.none).to_dict = [("success", Value.bool true)] :=
  ⟨(C1_api_ok_to_dict (Value.int 7)).1 (fun h => Value.noConfusion h),
   (C1_api_ok_to_dict Value.none).2 rfl⟩

/-- Claim C2: for every string `m` (including the empty string),
`api_error(m).to_dict()` is exactly the mapping binding `success` to
`false` and `error` to `m`, with no `data` key. -/
theorem C2_api_error_to_dict (m : String) :
    (api_error m).to_dict = [("success", Value.bool false), ("error", Value.str m)] ∧
    hasKey "data" (api_error m).to_dict = false :=
  ⟨rfl, rfl⟩

/-- Claim C3: for every envelope, however its fields were set, `to_dict`
contains the key `success` bound to the stored boolean, contains `data`
iff the stored data is not the absent sentinel, contains `error` iff the
stored error is not the absent sentinel, and contains no other key. -/
theorem C3_to_dict_key_characterization (r : ApiResponseDC) (k : String) :
    (hasKey k r.to_dict = true ↔
      (k = "success" ∨ (k = "data" ∧ r.data ≠ Value.none) ∨
        (k = "error" ∧ r.error ≠ Option.none))) ∧
    ("success", Value.bool r.success) ∈ r.to_dict := by
  obtain ⟨s, d, e⟩ := r
  cases d <;> cases e <;>
    simp [ApiResponseDC.to_dict_eq, hasKey, Value.isNone]

/-- Claim C4 as stated fails on the code: the envelope constructed
directly as `ApiResponseDC(success=False, data=1, error=None)` serializes
a `data` key although the success factory was not the constructor used,
so `data`-key presence is not equivalent to "the success constructor path
was used and the stored value is not the absent sentinel". -/
theorem C4_counterexample :
    ¬ (hasKey "data" (BuildPath.direct false (Value.int 1) Option.none).build.to_dict
        = ((BuildPath.direct false (Value.int 1) Option.none).usedOk
            && !(BuildPath.direct false (Value.int 1) Option.none).build.data.isNone)) := by
  decide

/-- Claim C4 (amended): restricted to the two constructor paths the
key-presence rule holds: an envelope built by `api_ok v` serializes a
`data` key exactly when `v` is not the absent sentinel and never
serializes an `error` key, and an envelope built by `api_error m` always
serializes an `error` key and never a `data` key. -/
theorem C4_amended_constructor_keys (v : Value) (m : String) :
    hasKey "data" (api_ok v).to_dict = !v.isNone ∧
    hasKey "error" (api_ok v).to_dict = false ∧
    hasKey "error" (api_error m).to_dict = true ∧
    hasKey "data" (api_error m).to_dict = false := by
  refine ⟨?_, ?_, rfl, rfl⟩ <;> cases v <;> rfl

/-- Claim C5: every operation of the component is total: `api_ok` accepts
any value (including the absent sentinel), `api_error` accepts any string
(including the empty string), and `to_dict` is defined on every envelope.
Each operation is embedded as a total function whose result type carries
no failure value (no `Option`/`Except`), faithfully to the source, which
has no raising or failing statement; in particular every input yields an
envelope, respectively a mapping. -/
theorem C5_operations_total (v : Value) (m : String) (r : ApiResponseDC) :
    (∃ e : ApiResponseDC, api_ok v = e) ∧
    (∃ e : ApiResponseDC, api_error m = e) ∧
    (∃ d : List (String × Value), r.to_dict = d) :=
  ⟨⟨api_ok v, rfl⟩, ⟨api_error m, rfl⟩, ⟨r.to_dict, rfl⟩⟩

/-- Claim C6: direct construction is unvalidated: for every combination of
success flag, data value and error value — including semantically
inconsistent combinations such as `success=True` with an error set, or
both `data` and `error` set — the constructor succeeds and stores exactly
the given field values. -/
theorem C6_direct_construction_unvalidated (s : Bool) (d : Value) (e : Option String) :
    (ApiResponseDC.mk s d e).success = s ∧
    (ApiResponseDC.mk s d e).data = d ∧
    (ApiResponseDC.mk s d e).error = e :=
  ⟨rfl, rfl, rfl⟩

/-- Claim C7: round trip — deserializing the mapping produced by
serializing an envelope reconstructs the envelope itself (hence a value
equivalent with respect to the present keys), and serializing twice
yields the same mapping as serializing once. -/
theorem C7_round_trip (r : ApiResponseDC) :
    deserialize r.to_dict = r ∧ (deserialize r.to_dict).to_dict = r.to_dict := by
  obtain ⟨s, d, e⟩ := r
  cases d <;> cases e <;> exact ⟨rfl, rfl⟩

/-- Claim C8: the two parallel forms agree: on every input, the pydantic
classmethods `ApiResponse.ok` / `ApiResponse.fail` and the dataclass
factories `api_ok` / `api_error` produce envelopes with identical
success, data and error field values. -/
theorem C8_parallel_forms_agree (v : Value) (m : String) :
    (ApiResponse.ok v).success = (api_ok v).success ∧
    (ApiResponse.ok v).data = (api_ok v).data ∧
    (ApiResponse.ok v).error = (api_ok v).error ∧
    (ApiResponse.fail m).success = (api_error m).success ∧
    (ApiResponse.fail m).data = (api_error m).data ∧
    (ApiResponse.fail m).error = (api_error m).error :=
  ⟨rfl, rfl, rfl, rfl, rfl, rfl⟩

/-- Claim C9: the dataclass envelope is immutable through the component's
operations: the only method, `to_dict`, viewed as a state transformer on
its receiver, returns the receiver unchanged while computing the same
mapping as the pure serialization, so the fields set at construction are
never mutated by any operation of the component. -/
theorem C9_envelope_immutable (r : ApiResponseDC) :
    r.to_dict_method.2 = r ∧ r.to_dict_method.1 = r.to_dict :=
  ⟨rfl, rfl⟩

/-- Claim C10 (implicit): serialization is driven solely by the stored
field values, independently of the constructor used: a directly
constructed envelope with `success=False` and non-absent data serializes
the `data` key bound to that value, one with `success=True` and an error
string serializes the `error` key bound to that string, and a mapping may
contain `success`, `data` and `error` simultaneously. -/
theorem C10_serialization_by_fields (d : Value) (m : String) (hd : d ≠ Value.none) :
    ("data", d) ∈ (ApiResponseDC.mk false d Option.none).to_dict ∧
    ("error", Value.str m) ∈ (ApiResponseDC.mk true Value.none (Option.some m)).to_dict ∧
    (ApiResponseDC.mk true d (Option.some m)).to_dict
      = [("success", Value.bool true), ("data", d), ("error", Value.str m)] := by
  have hd2 : d.isNone = false := (Value.isNone_eq_false_iff d).2 hd
  refine ⟨?_, ?_, ?_⟩
  · simp [ApiResponseDC.to_dict_eq, hd2]
  · simp [ApiResponseDC.to_dict_eq, Value.isNone]
  · simp [ApiResponseDC.to_dict_eq, hd2]

/-- Witness for C10 at the concrete inputs `Value.int 1` and `"boom"`. -/
theorem C10_serialization_by_fields_witness :
    ("data", Value.int 1) ∈ (ApiResponseDC.mk false (Value.int 1) Option.none).to_dict ∧
    ("error", Value.str "boom")
      ∈ (ApiResponseDC.mk true Value.none (Option.some "boom")).to_dict ∧
    (ApiResponseDC.mk true (Value.int 1) (Option.some "boom")).to_dict
      = [("success", Value.bool true), ("data", Value.int 1), ("error", Value.str "boom")] :=
  C10_serialization_by_fields (Value.int 1) "boom" (fun h => Value.noConfusion h)
